import Mathlib

/-!
Shallow embedding of the stop-button streaming service:
the Redis-backed stop-signal store (`src/services/redis_client.py`),
the agent orchestrator loop (`src/agent/agent_core.py`),
the Strands-to-AGUI protocol bridge (`src/agent/agui_bridge.py`),
and the bulk stop endpoint (`src/api/stop.py`).
-/

namespace StopButton

/-- One unit pulled from `agent.stream_async`: a dict that either carries a
`"data"` text payload or is control-only (no `"data"` key). -/
inductive Fragment where
  | data (text : String)
  | control
deriving DecidableEq

/-- The `"data"` payload of a fragment, mirroring `if "data" in event: yield event["data"]`
in `AgentOrchestrator.stream_response`. -/
def fragData : Fragment → Option String
  | .data t => some t
  | .control => none

/-- Python's `event_data.strip()` truthiness test: a string is blank (falsy after
strip) exactly when all of its characters are whitespace, the empty string
included. -/
def isBlank (s : String) : Bool := s.data.all Char.isWhitespace

/-- The text a fragment contributes to the wire output: its `"data"` payload if that
payload is non-blank after stripping (the bridge drops blank strings via
`event_data.strip()`). -/
def contentText (f : Fragment) : Option String :=
  match fragData f with
  | some t => if isBlank t then none else some t
  | none => none

/-! ## Signal store (`RedisClient`) -/

/-- The Redis client as seen by one call: the class-level `_client` may be
uninitialized (`None`), the operation may raise, or the store is reachable and
the key `stop:{chat_id}` holds an optional string value. -/
inductive StoreAccess where
  | uninit
  | failing
  | ready (marker : Option String)
deriving DecidableEq

/-- `RedisClient.set_stop_signal`: returns `False` if the client is `None` or the
`setex` raises; otherwise writes `"1"` under the key and returns `True`. -/
def set_stop_signal : StoreAccess → Bool × StoreAccess
  | .uninit => (false, .uninit)
  | .failing => (false, .failing)
  | .ready _ => (true, .ready (some "1"))

/-- `RedisClient.check_stop_signal`: returns `False` if the client is `None` or the
operation raises; otherwise `GETDEL` atomically reads and clears the key and the
result is truthy iff a non-empty value was stored. -/
def check_stop_signal : StoreAccess → Bool × StoreAccess
  | .uninit => (false, .uninit)
  | .failing => (false, .failing)
  | .ready (some v) => (v != "", .ready none)
  | .ready none => (false, .ready none)

/-! ## Orchestrator (`AgentOrchestrator`) -/

/-- What one `await RedisClient.check_stop_signal(...)` call looks like from
`_check_stop`: a boolean result, or an exception raised by the store. -/
inductive CheckOutcome where
  | ok (detected : Bool)
  | exn
deriving DecidableEq

/-- `AgentOrchestrator._check_stop`: given the current `requested_stop` flag and the
store call's outcome, returns `(result, new requested_stop)`. A raised exception is
caught, logged and treated as `False`. -/
def _check_stop : Bool → CheckOutcome → Bool × Bool
  | true, _ => (true, true)
  | false, .ok true => (true, true)
  | false, .ok false => (false, false)
  | false, .exn => (false, false)

/-- Whether a store-check outcome makes `_check_stop` report a stop when
`requested_stop` is still false. -/
def stopDetected : CheckOutcome → Bool
  | .ok b => b
  | .exn => false

/-- The observable effects of one fully-driven `stream_response` generator:
the yielded strings, how many fragments were pulled from `agent.stream_async`,
how many times `agent.tool.stop()` was invoked, and the final `requested_stop`. -/
structure OrchestratorRun where
  events : List String
  pulls : Nat
  aborts : Nat
  requested_stop : Bool
deriving DecidableEq

/-- The loop body of `AgentOrchestrator.stream_response`. `checks i` is the outcome
of the Redis probe made while handling the fragment at index `i`; once
`requested_stop` is true the loop `continue`s, skipping the probe and all
processing while still pulling fragments. On a detected stop it calls
`agent.tool.stop()`, yields `"[STOPPED]"` and `continue`s. -/
def stream_response_go (checks : Nat → CheckOutcome) :
    Bool → Nat → List Fragment → OrchestratorRun
  | flag, _, [] => ⟨[], 0, 0, flag⟩
  | true, i, _ :: rest =>
      let r := stream_response_go checks true (i + 1) rest
      ⟨r.events, r.pulls + 1, r.aborts, r.requested_stop⟩
  | false, i, f :: rest =>
      if (_check_stop false (checks i)).1 then
        let r := stream_response_go checks true (i + 1) rest
        ⟨"[STOPPED]" :: r.events, r.pulls + 1, r.aborts + 1, r.requested_stop⟩
      else
        let r := stream_response_go checks false (i + 1) rest
        match fragData f with
        | some t => ⟨t :: r.events, r.pulls + 1, r.aborts, r.requested_stop⟩
        | none => ⟨r.events, r.pulls + 1, r.aborts, r.requested_stop⟩

/-- `AgentOrchestrator.stream_response` driven over a fragment sequence, starting
from `requested_stop = False`. -/
def stream_response (checks : Nat → CheckOutcome) (fragments : List Fragment) :
    OrchestratorRun :=
  stream_response_go checks false 0 fragments

/-! ## Protocol bridge (`StrandsToAGUIBridge`) -/

/-- The AGUI wire envelopes the bridge can emit. -/
inductive WireEnvelope where
  | run_started (thread_id run_id : String)
  | content_delta (message_id delta : String)
  | run_finished (thread_id run_id : String)
  | run_error (message : String)
deriving DecidableEq

/-- The fixed stop-marker delta text emitted when the bridge sees `"[STOPPED]"`. -/
def stopMarker : String := "\n[Agent stopped by user]"

/-- The bridge's per-run mutable state: thread id, run id, and the lazily
allocated `current_message_id`. -/
structure BridgeState where
  thread_id : String
  run_id : String
  current_message_id : Option String
deriving DecidableEq

/-- `StrandsToAGUIBridge._get_or_create_message_id`: returns the stored id if one
exists, otherwise allocates the fresh uuid `fresh` and stores it. A run allocates
at most one id, so a single fresh name models the uuid supply. -/
def _get_or_create_message_id (fresh : String) (st : BridgeState) :
    String × BridgeState :=
  match st.current_message_id with
  | some m => (m, st)
  | none => (fresh, { st with current_message_id := some fresh })

/-- The `async for` body of `convert_stream` plus its epilogue. `items` are the
strings the upstream generator yields before it either ends (`err = none`) or
raises (`err = some e`); the bridge only observes the raise if it consumes past
the last item, so a `break` at `"[STOPPED]"` hides it, as in the lazy original. -/
def convert_go (fresh : String) (st : BridgeState) :
    List String → Option String → List WireEnvelope
  | [], some e => [.run_error e]
  | [], none => [.run_finished st.thread_id st.run_id]
  | item :: rest, err =>
      if item == "[STOPPED]" then
        let p := _get_or_create_message_id fresh st
        [.content_delta p.1 stopMarker, .run_finished st.thread_id st.run_id]
      else if isBlank item then
        convert_go fresh st rest err
      else
        let p := _get_or_create_message_id fresh st
        .content_delta p.1 item :: convert_go fresh p.2 rest err

/-- `StrandsToAGUIBridge.convert_stream`: emits `RUN_STARTED` first, then processes
the upstream items; the orchestrator yields only strings, so items are strings. -/
def convert_stream (thread_id run_id fresh : String)
    (items : List String) (err : Option String) : List WireEnvelope :=
  .run_started thread_id run_id ::
    convert_go fresh ⟨thread_id, run_id, none⟩ items err

/-- The composed run as served by `/chat`: orchestrator events fed into the bridge.
`err` is the exception, if any, that `agent.stream_async` raises after yielding
`fragments`; `stream_response` does not catch it, so it reaches the bridge. -/
def pipeline (thread_id run_id fresh : String) (checks : Nat → CheckOutcome)
    (fragments : List Fragment) (err : Option String) : List WireEnvelope :=
  convert_stream thread_id run_id fresh (stream_response checks fragments).events err

/-- Discriminant test: is this envelope a content delta? -/
def isDelta : WireEnvelope → Bool
  | .content_delta _ _ => true
  | _ => false

/-- Discriminant test: is this envelope terminal (`run_finished` or `run_error`)? -/
def isTerminal : WireEnvelope → Bool
  | .run_finished _ _ => true
  | .run_error _ => true
  | _ => false

/-! ## Bulk stop endpoint (`stop_multiple_chats`) -/

/-- Outcome of one `await RedisClient.set_stop_signal(chat_id)` inside the bulk
loop: a boolean, or a raised exception with its message. -/
inductive SetStopOutcome where
  | ok (success : Bool)
  | raised (msg : String)
deriving DecidableEq

/-- One entry of the bulk response's `results` list. -/
structure StopResult where
  chat_id : String
  status : String
  error : Option String
deriving DecidableEq

/-- The result entry the bulk loop appends for one chat id. -/
def resultFor (chat_id : String) : SetStopOutcome → StopResult
  | .ok true => ⟨chat_id, "accepted", none⟩
  | .ok false => ⟨chat_id, "failed", none⟩
  | .raised e => ⟨chat_id, "error", some e⟩

/-- The response body of `stop_multiple_chats`. -/
structure BulkStopResponse where
  results : List StopResult
  total : Nat
  successful : Nat
  failed : Nat
deriving DecidableEq

/-- `stop_multiple_chats`: one result per requested chat id in order, exceptions
caught per id, and the aggregate counters computed from the results list. -/
def stop_multiple_chats (reqs : List (String × SetStopOutcome)) : BulkStopResponse :=
  let results := reqs.map (fun p => resultFor p.1 p.2)
  let successful := (results.filter (fun r => r.status == "accepted")).length
  ⟨results, results.length, successful, results.length - successful⟩

/-! ## Auxiliary definitions for the statements -/

/-- The message-id invariant the bridge maintains: the stored id is either not yet
allocated or equal to the run's single fresh uuid. -/
def midOk (fresh : String) (m : Option String) : Prop := m = none ∨ m = some fresh

/-- Replace a raised store probe by a clean "no signal" outcome; used to state that
store failures are handled exactly like an absent signal. -/
def sanitize : CheckOutcome → CheckOutcome
  | .exn => .ok false
  | c => c

/-! ## Helper lemmas -/

theorem stopDetected_eq (c : CheckOutcome) :
    (_check_stop false c).1 = stopDetected c := by
  cases c with
  | ok b => cases b <;> rfl
  | exn => rfl

theorem sanitize_stopDetected (c : CheckOutcome) :
    stopDetected (sanitize c) = stopDetected c := by
  cases c with
  | ok b => rfl
  | exn => rfl

theorem stream_go_stopped (checks : Nat → CheckOutcome) (i : Nat)
    (frs : List Fragment) :
    stream_response_go checks true i frs = ⟨[], frs.length, 0, true⟩ := by
  induction frs generalizing i with
  | nil => rfl
  | cons f rest ih => simp [stream_response_go, ih]

theorem stream_go_no_stop (checks : Nat → CheckOutcome) (frs : List Fragment)
    (i : Nat) (h : ∀ j, j < frs.length → stopDetected (checks (i + j)) = false) :
    stream_response_go checks false i frs =
      ⟨frs.filterMap fragData, frs.length, 0, false⟩ := by
  induction frs generalizing i with
  | nil => rfl
  | cons f rest ih =>
      have h0 : stopDetected (checks i) = false := by
        have := h 0 (by simp)
        simpa using this
      have hrest : ∀ j, j < rest.length → stopDetected (checks (i + 1 + j)) = false := by
        intro j hj
        have := h (j + 1) (by simp; omega)
        simpa [Nat.add_assoc, Nat.add_comm 1 j] using this
      cases f with
      | data t =>
          simp [stream_response_go, stopDetected_eq, h0, ih (i + 1) hrest, fragData]
      | control =>
          simp [stream_response_go, stopDetected_eq, h0, ih (i + 1) hrest, fragData]

theorem stream_go_first_stop (checks : Nat → CheckOutcome) (pre : List Fragment)
    (f : Fragment) (post : List Fragment) (i : Nat)
    (hpre : ∀ j, j < pre.length → stopDetected (checks (i + j)) = false)
    (hstop : stopDetected (checks (i + pre.length)) = true) :
    stream_response_go checks false i (pre ++ f :: post) =
      ⟨pre.filterMap fragData ++ ["[STOPPED]"],
       pre.length + post.length + 1, 1, true⟩ := by
  induction pre generalizing i with
  | nil =>
      have h0 : stopDetected (checks i) = true := by simpa using hstop
      simp [stream_response_go, stopDetected_eq, h0, stream_go_stopped]
  | cons g pre ih =>
      have h0 : stopDetected (checks i) = false := by
        have := hpre 0 (by simp)
        simpa using this
      have hpre2 : ∀ j, j < pre.length → stopDetected (checks (i + 1 + j)) = false := by
        intro j hj
        have := hpre (j + 1) (by simp; omega)
        simpa [Nat.add_assoc, Nat.add_comm 1 j] using this
      have hstop2 : stopDetected (checks (i + 1 + pre.length)) = true := by
        have := hstop
        simpa [Nat.add_assoc, Nat.add_comm 1 pre.length] using this
      cases g with
      | data t =>
          simp [stream_response_go, stopDetected_eq, h0, ih (i + 1) hpre2 hstop2,
            fragData]
          omega
      | control =>
          simp [stream_response_go, stopDetected_eq, h0, ih (i + 1) hpre2 hstop2,
            fragData]
          omega

theorem stream_go_ext (checks1 checks2 : Nat → CheckOutcome)
    (h : ∀ j, stopDetected (checks1 j) = stopDetected (checks2 j))
    (flag : Bool) (i : Nat) (frs : List Fragment) :
    stream_response_go checks1 flag i frs = stream_response_go checks2 flag i frs := by
  induction frs generalizing flag i with
  | nil => cases flag <;> rfl
  | cons f rest ih =>
      cases flag with
      | true => simp [stream_response_go, ih]
      | false =>
          simp only [stream_response_go, stopDetected_eq, h i]
          cases stopDetected (checks2 i) <;> simp [ih]

theorem get_or_create_mid (fresh t r : String) (m : Option String)
    (hm : midOk fresh m) :
    _get_or_create_message_id fresh ⟨t, r, m⟩ = (fresh, ⟨t, r, some fresh⟩) := by
  rcases hm with hm | hm <;> subst hm <;> rfl

theorem convert_go_stop_head (fresh t r : String) (m : Option String)
    (rest : List String) (err : Option String) (hm : midOk fresh m) :
    convert_go fresh ⟨t, r, m⟩ ("[STOPPED]" :: rest) err =
      [.content_delta fresh stopMarker, .run_finished t r] := by
  simp [convert_go, get_or_create_mid fresh t r m hm]

theorem convert_go_texts (fresh t r : String) (texts : List String)
    (m : Option String) (rest : List String) (err : Option String)
    (hm : midOk fresh m) (hclean : ∀ s ∈ texts, s ≠ "[STOPPED]") :
    ∃ m2, midOk fresh m2 ∧
      convert_go fresh ⟨t, r, m⟩ (texts ++ rest) err =
        (texts.filter (fun s => !(isBlank s))).map (WireEnvelope.content_delta fresh)
          ++ convert_go fresh ⟨t, r, m2⟩ rest err := by
  induction texts generalizing m with
  | nil => exact ⟨m, hm, by simp⟩
  | cons s texts ih =>
      have hs : (s == "[STOPPED]") = false := by
        have := hclean s (by simp)
        simpa using this
      have hclean2 : ∀ x ∈ texts, x ≠ "[STOPPED]" := fun x hx =>
        hclean x (by simp [hx])
      cases hb : isBlank s with
      | true =>
          obtain ⟨m2, hm2, heq⟩ := ih m hm hclean2
          exact ⟨m2, hm2, by simp [convert_go, hs, hb, heq]⟩
      | false =>
          obtain ⟨m2, hm2, heq⟩ := ih (some fresh) (Or.inr rfl) hclean2
          refine ⟨m2, hm2, ?_⟩
          simp [convert_go, hs, hb, get_or_create_mid fresh t r m hm, heq]

theorem filter_contentText (frs : List Fragment) :
    (frs.filterMap fragData).filter (fun s => !(isBlank s)) =
      frs.filterMap contentText := by
  induction frs with
  | nil => rfl
  | cons f rest ih =>
      cases f with
      | data t =>
          cases hb : isBlank t with
          | true => simp [fragData, contentText, hb, ih]
          | false => simp [fragData, contentText, hb, ih]
      | control => simp [fragData, contentText, ih]

theorem clean_filterMap (frs : List Fragment)
    (h : ∀ g ∈ frs, fragData g ≠ some "[STOPPED]") :
    ∀ s ∈ frs.filterMap fragData, s ≠ "[STOPPED]" := by
  intro s hs
  rw [List.mem_filterMap] at hs
  obtain ⟨g, hg, hgs⟩ := hs
  intro hcontra
  exact h g hg (hcontra ▸ hgs)

theorem convert_go_shape (fresh : String) (st : BridgeState)
    (items : List String) (err : Option String) :
    ∃ ds term, convert_go fresh st items err = ds ++ [term] ∧
      (∀ e ∈ ds, isDelta e = true) ∧ isTerminal term = true := by
  induction items generalizing st with
  | nil =>
      cases err with
      | some e => exact ⟨[], .run_error e, rfl, by simp, rfl⟩
      | none => exact ⟨[], .run_finished st.thread_id st.run_id, rfl, by simp, rfl⟩
  | cons item rest ih =>
      cases hs : item == "[STOPPED]" with
      | true =>
          refine ⟨[.content_delta (_get_or_create_message_id fresh st).1 stopMarker],
            .run_finished st.thread_id st.run_id, ?_, ?_, rfl⟩
          · simp [convert_go, hs]
          · simp [isDelta]
      | false =>
          cases hb : isBlank item with
          | true =>
              obtain ⟨ds, term, heq, hds, hterm⟩ := ih st
              exact ⟨ds, term, by simp [convert_go, hs, hb, heq], hds, hterm⟩
          | false =>
              obtain ⟨ds, term, heq, hds, hterm⟩ :=
                ih (_get_or_create_message_id fresh st).2
              refine ⟨.content_delta (_get_or_create_message_id fresh st).1 item :: ds,
                term, ?_, ?_, hterm⟩
              · simp [convert_go, hs, hb, heq]
              · intro e he
                rcases List.mem_cons.mp he with he | he
                · simp [he, isDelta]
                · exact hds e he

theorem convert_go_mid (fresh t r : String) (items : List String)
    (err : Option String) (m : Option String) (hm : midOk fresh m) :
    ∀ mid d, WireEnvelope.content_delta mid d ∈
        convert_go fresh ⟨t, r, m⟩ items err → mid = fresh := by
  induction items generalizing m with
  | nil =>
      intro mid d hmem
      cases err with
      | some e => simp [convert_go] at hmem
      | none => simp [convert_go] at hmem
  | cons item rest ih =>
      intro mid d hmem
      cases hs : item == "[STOPPED]" with
      | true =>
          rw [show item = "[STOPPED]" from by simpa using hs] at hmem
          rw [convert_go_stop_head fresh t r m rest err hm] at hmem
          simp at hmem
          exact hmem.1
      | false =>
          cases hb : isBlank item with
          | true =>
              simp only [convert_go, hs, hb] at hmem
              simp at hmem
              exact ih m hm mid d hmem
          | false =>
              simp only [convert_go, hs, hb,
                get_or_create_mid fresh t r m hm] at hmem
              simp at hmem
              rcases hmem with ⟨hmid, _⟩ | hmem
              · exact hmid
              · exact ih (some fresh) (Or.inr rfl) mid d hmem

theorem resultFor_chat_id (c : String) (o : SetStopOutcome) :
    (resultFor c o).chat_id = c := by
  cases o with
  | ok b => cases b <;> rfl
  | raised e => rfl

theorem map_resultFor_chat_id (reqs : List (String × SetStopOutcome)) :
    (reqs.map fun p => resultFor p.1 p.2).map StopResult.chat_id =
      reqs.map Prod.fst := by
  induction reqs with
  | nil => rfl
  | cons p rest ih => simp [resultFor_chat_id, ih]

/-! ## Claim theorems -/

/-- Claim C1: for every run and input event stream, `convert_stream` yields a
`run_started` envelope first, then zero or more `content_delta` envelopes, and a
single terminal envelope (`run_finished` or `run_error`) last, with nothing after
the terminal one. -/
theorem convert_stream_wellformed (t r fresh : String) (items : List String)
    (err : Option String) :
    ∃ ds term, convert_stream t r fresh items err =
        WireEnvelope.run_started t r :: (ds ++ [term]) ∧
      (∀ e ∈ ds, isDelta e = true) ∧ isTerminal term = true := by
  obtain ⟨ds, term, heq, hds, hterm⟩ := convert_go_shape fresh ⟨t, r, none⟩ items err
  exact ⟨ds, term, by simp [convert_stream, heq], hds, hterm⟩

/-- Claim C2: once a stop signal is consumed at the boundary after the `pre`
fragments, no content derived from the in-flight fragment `f` or the later `post`
fragments is forwarded, and the run terminates with a stop-marker delta followed
by `run_finished`, never `run_error` — even if the source would raise later. -/
theorem stop_suppresses_later_content (t r fresh : String)
    (checks : Nat → CheckOutcome) (pre : List Fragment) (f : Fragment)
    (post : List Fragment) (err : Option String)
    (hpre : ∀ j, j < pre.length → stopDetected (checks j) = false)
    (hstop : stopDetected (checks pre.length) = true)
    (hclean : ∀ g ∈ pre, fragData g ≠ some "[STOPPED]") :
    pipeline t r fresh checks (pre ++ f :: post) err =
      WireEnvelope.run_started t r ::
        ((pre.filterMap contentText).map (WireEnvelope.content_delta fresh)
          ++ [WireEnvelope.content_delta fresh stopMarker,
              WireEnvelope.run_finished t r]) := by
  have hev : (stream_response checks (pre ++ f :: post)).events =
      pre.filterMap fragData ++ ["[STOPPED]"] := by
    rw [stream_response, stream_go_first_stop checks pre f post 0
      (fun j hj => by simpa using hpre j hj) (by simpa using hstop)]
  obtain ⟨m2, hm2, heq⟩ := convert_go_texts fresh t r (pre.filterMap fragData) none
    ["[STOPPED]"] err (Or.inl rfl) (clean_filterMap pre hclean)
  simp [pipeline, convert_stream, hev, heq, filter_contentText,
    convert_go_stop_head fresh t r m2 [] err hm2]

/-- Witness for C2: stop consumed right after `"foo"`; `"bar"` and `"baz"` never
appear and the run ends with the stop marker and `run_finished`. -/
theorem stop_suppresses_later_content_witness :
    stopDetected ((fun i => if i = 1 then CheckOutcome.ok true
        else CheckOutcome.ok false) 1) = true ∧
    pipeline "t" "r" "m" (fun i => if i = 1 then CheckOutcome.ok true
        else CheckOutcome.ok false)
        [Fragment.data "foo", Fragment.data "bar", Fragment.data "baz"] none =
      [WireEnvelope.run_started "t" "r", WireEnvelope.content_delta "m" "foo",
       WireEnvelope.content_delta "m" stopMarker,
       WireEnvelope.run_finished "t" "r"] :=
  ⟨rfl, (stop_suppresses_later_content "t" "r" "m"
      (fun i => if i = 1 then CheckOutcome.ok true else CheckOutcome.ok false)
      [Fragment.data "foo"] (Fragment.data "bar") [Fragment.data "baz"] none
      (fun j hj => by
        have hj1 : j = 0 := Nat.lt_one_iff.mp (by simpa using hj)
        subst hj1; rfl) rfl (by decide)).trans (by decide)⟩

/-- Counterexample to C3: with two fragments and a stop consumed at the first
boundary, the orchestrator emits `"[STOPPED]"` and nothing further, yet it still
pulls the second fragment (`pulls = 2`, not `1`): the loop `continue`s instead of
terminating, so fragments keep being pulled after the Stopped event. -/
theorem orchestrator_pulls_after_stop :
    stream_response (fun _ => CheckOutcome.ok true)
        [Fragment.data "a", Fragment.data "b"] =
      ⟨["[STOPPED]"], 2, 1, true⟩ ∧
    (stream_response (fun _ => CheckOutcome.ok true)
        [Fragment.data "a", Fragment.data "b"]).pulls ≠ 1 := by
  decide

/-- Claim C3 (amended): when a stop signal is consumed at a fragment boundary,
`requested_stop` is set, exactly one best-effort abort is issued, `"[STOPPED]"` is
emitted and is the final event; however the remaining fragments are still pulled
from the source and silently discarded rather than the loop terminating. -/
theorem stop_halts_events_not_pulls (checks : Nat → CheckOutcome)
    (pre : List Fragment) (f : Fragment) (post : List Fragment)
    (hpre : ∀ j, j < pre.length → stopDetected (checks j) = false)
    (hstop : stopDetected (checks pre.length) = true) :
    stream_response checks (pre ++ f :: post) =
      ⟨pre.filterMap fragData ++ ["[STOPPED]"],
       pre.length + post.length + 1, 1, true⟩ := by
  rw [stream_response]
  exact stream_go_first_stop checks pre f post 0
    (fun j hj => by simpa using hpre j hj) (by simpa using hstop)

/-- Witness for the amended C3. -/
theorem stop_halts_events_not_pulls_witness :
    stopDetected ((fun _ => CheckOutcome.ok true) 0) = true ∧
    stream_response (fun _ => CheckOutcome.ok true)
        [Fragment.data "a", Fragment.data "b"] =
      ⟨["[STOPPED]"], 2, 1, true⟩ :=
  ⟨rfl, stop_halts_events_not_pulls (fun _ => CheckOutcome.ok true) []
    (Fragment.data "a") [Fragment.data "b"]
    (fun j hj => absurd hj (Nat.not_lt_zero j)) rfl⟩

/-- Counterexample to C4: a run that reaches Stopped before producing any content
still allocates a message id and still emits the stop-marker delta, instead of
leaving the id unallocated and skipping the marker. -/
theorem stop_allocates_message_id :
    convert_stream "t" "r" "m1" ["[STOPPED]"] none =
      [WireEnvelope.run_started "t" "r",
       WireEnvelope.content_delta "m1" stopMarker,
       WireEnvelope.run_finished "t" "r"] ∧
    convert_stream "t" "r" "m1" ["[STOPPED]"] none ≠
      [WireEnvelope.run_started "t" "r", WireEnvelope.run_finished "t" "r"] := by
  decide

/-- Claim C4 (amended): every content delta of a run carries the run's single
message id (assigned at most once and reused unchanged), but the id is allocated
lazily at the first delta or at the stop marker — whichever comes first — and the
stop-marker delta is always emitted on Stopped, allocating an id if none exists. -/
theorem message_id_stable :
    (∀ t r fresh items err mid d,
        WireEnvelope.content_delta mid d ∈ convert_stream t r fresh items err →
          mid = fresh) ∧
    (∀ t r fresh rest err,
        convert_go fresh ⟨t, r, none⟩ ("[STOPPED]" :: rest) err =
          [WireEnvelope.content_delta fresh stopMarker,
           WireEnvelope.run_finished t r]) := by
  constructor
  · intro t r fresh items err mid d hmem
    simp only [convert_stream, List.mem_cons] at hmem
    rcases hmem with hmem | hmem
    · exact absurd hmem (by simp)
    · exact convert_go_mid fresh t r items err none (Or.inl rfl) mid d hmem
  · intro t r fresh rest err
    exact convert_go_stop_head fresh t r none rest err (Or.inl rfl)

/-- Witness for the amended C4. -/
theorem message_id_stable_witness :
    WireEnvelope.content_delta "m1" "hi" ∈
      convert_stream "t" "r" "m1" ["hi"] none ∧
    "m1" = "m1" :=
  ⟨by decide, message_id_stable.1 "t" "r" "m1" ["hi"] none "m1" "hi" (by decide)⟩

/-- Counterexample to C5: an empty-string content event is filtered out by the
bridge — no `content_delta` with an empty delta is forwarded. -/
theorem empty_content_filtered :
    convert_stream "t" "r" "m1" [""] none =
      [WireEnvelope.run_started "t" "r", WireEnvelope.run_finished "t" "r"] ∧
    convert_stream "t" "r" "m1" [""] none ≠
      [WireEnvelope.run_started "t" "r", WireEnvelope.content_delta "m1" "",
       WireEnvelope.run_finished "t" "r"] := by
  decide

/-- Claim C5 (amended): a content event whose text is empty — or blank after
stripping — is dropped by the bridge rather than forwarded: the output is exactly
the output of the same stream without that event. -/
theorem blank_content_dropped (t r fresh s : String) (items : List String)
    (err : Option String) (h : isBlank s = true) :
    convert_stream t r fresh (s :: items) err =
      convert_stream t r fresh items err := by
  have hs : (s == "[STOPPED]") = false := by
    cases heq : s == "[STOPPED]" with
    | false => rfl
    | true =>
        rw [show s = "[STOPPED]" from by simpa using heq] at h
        exact absurd h (by decide)
  simp [convert_stream, convert_go, hs, h]

/-- Witness for the amended C5. -/
theorem blank_content_dropped_witness :
    isBlank "" = true ∧
    convert_stream "t" "r" "m1" ["", "hi"] none =
      convert_stream "t" "r" "m1" ["hi"] none :=
  ⟨rfl, blank_content_dropped "t" "r" "m1" "" ["hi"] none rfl⟩

/-- Claim C6: if the fragment source raises after yielding its fragments (and no
stop intervenes, so the raise is actually reached), the wire sequence is
`run_started`, exactly the deltas of the content-carrying fragments in order, and
a terminal `run_error` carrying the cause — the exception is absorbed at the
bridge, which emits nothing after the terminal envelope. -/
theorem generation_error_reaches_bridge (t r fresh e : String)
    (checks : Nat → CheckOutcome) (fragments : List Fragment)
    (hnostop : ∀ j, j < fragments.length → stopDetected (checks j) = false)
    (hclean : ∀ g ∈ fragments, fragData g ≠ some "[STOPPED]") :
    pipeline t r fresh checks fragments (some e) =
      WireEnvelope.run_started t r ::
        ((fragments.filterMap contentText).map (WireEnvelope.content_delta fresh)
          ++ [WireEnvelope.run_error e]) := by
  have hev : (stream_response checks fragments).events =
      fragments.filterMap fragData := by
    rw [stream_response, stream_go_no_stop checks fragments 0
      (fun j hj => by simpa using hnostop j hj)]
  obtain ⟨m2, hm2, heq⟩ := convert_go_texts fresh t r (fragments.filterMap fragData)
    none [] (some e) (Or.inl rfl) (clean_filterMap fragments hclean)
  simp only [List.append_nil] at heq
  simp [pipeline, convert_stream, hev, heq, filter_contentText, convert_go]

/-- Witness for C6. -/
theorem generation_error_reaches_bridge_witness :
    stopDetected ((fun _ => CheckOutcome.ok false) 0) = false ∧
    pipeline "t" "r" "m" (fun _ => CheckOutcome.ok false)
        [Fragment.data "a"] (some "boom") =
      [WireEnvelope.run_started "t" "r", WireEnvelope.content_delta "m" "a",
       WireEnvelope.run_error "boom"] :=
  ⟨rfl, (generation_error_reaches_bridge "t" "r" "m" "boom"
      (fun _ => CheckOutcome.ok false) [Fragment.data "a"]
      (fun j hj => rfl) (by decide)).trans (by decide)⟩

/-- Claim C7: a signal-store failure is treated as "no stop detected": an
uninitialized client or a raised store operation makes `check_stop_signal` return
`False` without touching the store, `_check_stop` maps a raised probe to `False`
leaving `requested_stop` false, and a run whose probes raise produces exactly the
wire envelopes of the same run whose probes cleanly report no signal. -/
theorem store_failure_fail_open :
    check_stop_signal .uninit = (false, .uninit) ∧
    check_stop_signal .failing = (false, .failing) ∧
    _check_stop false .exn = (false, false) ∧
    ∀ t r fresh checks fragments err,
      pipeline t r fresh (fun j => sanitize (checks j)) fragments err =
        pipeline t r fresh checks fragments err := by
  refine ⟨rfl, rfl, rfl, ?_⟩
  intro t r fresh checks fragments err
  simp [pipeline, stream_response,
    stream_go_ext (fun j => sanitize (checks j)) checks
      (fun j => sanitize_stopDetected (checks j)) false 0 fragments]

/-- Claim C8: `check_and_consume_stop` twice in a row without an intervening set
returns true at most once: a successful consume atomically clears the marker, and
the second call always returns false. -/
theorem stop_signal_consumed_at_most_once :
    ∀ a : StoreAccess,
      ((check_stop_signal a).1 = true →
        (check_stop_signal a).2 = StoreAccess.ready none) ∧
      (check_stop_signal (check_stop_signal a).2).1 = false := by
  intro a
  cases a with
  | uninit => exact ⟨fun h => absurd h (by decide), rfl⟩
  | failing => exact ⟨fun h => absurd h (by decide), rfl⟩
  | ready m =>
      cases m with
      | none => exact ⟨fun h => absurd h (by decide), rfl⟩
      | some v => exact ⟨fun _ => rfl, rfl⟩

/-- Witness for C8: a stored `"1"` marker is consumed by the first call and the
second call returns false. -/
theorem stop_signal_consumed_witness :
    (check_stop_signal (StoreAccess.ready (some "1"))).1 = true ∧
    (check_stop_signal (StoreAccess.ready (some "1"))).2 =
      StoreAccess.ready none ∧
    (check_stop_signal
      (check_stop_signal (StoreAccess.ready (some "1"))).2).1 = false :=
  ⟨by decide,
   (stop_signal_consumed_at_most_once (StoreAccess.ready (some "1"))).1 (by decide),
   (stop_signal_consumed_at_most_once (StoreAccess.ready (some "1"))).2⟩

/-- Claim C9: an ordinary content fragment whose text is the literal
`"[STOPPED]"`, with no stop ever requested, is indistinguishable from the stop
sentinel: the bridge emits the stop-marker delta, stops consuming, and terminates
with `run_finished`, so later fragments never appear. -/
theorem inband_stop_sentinel (t r fresh : String) (checks : Nat → CheckOutcome)
    (pre post : List Fragment) (err : Option String)
    (hnostop : ∀ j, stopDetected (checks j) = false)
    (hclean : ∀ g ∈ pre, fragData g ≠ some "[STOPPED]") :
    pipeline t r fresh checks (pre ++ Fragment.data "[STOPPED]" :: post) err =
      WireEnvelope.run_started t r ::
        ((pre.filterMap contentText).map (WireEnvelope.content_delta fresh)
          ++ [WireEnvelope.content_delta fresh stopMarker,
              WireEnvelope.run_finished t r]) := by
  have hev : (stream_response checks
      (pre ++ Fragment.data "[STOPPED]" :: post)).events =
      pre.filterMap fragData ++ "[STOPPED]" :: post.filterMap fragData := by
    rw [stream_response, stream_go_no_stop checks _ 0
      (fun j _ => by simpa using hnostop j)]
    simp [List.filterMap_append, fragData]
  obtain ⟨m2, hm2, heq⟩ := convert_go_texts fresh t r (pre.filterMap fragData) none
    ("[STOPPED]" :: post.filterMap fragData) err (Or.inl rfl)
    (clean_filterMap pre hclean)
  simp [pipeline, convert_stream, hev, heq, filter_contentText,
    convert_go_stop_head fresh t r m2 (post.filterMap fragData) err hm2]

/-- Witness for C9: `"x"`, then in-band `"[STOPPED]"` content, then `"y"`; the
output stops at the stop marker and `"y"` never appears. -/
theorem inband_stop_sentinel_witness :
    stopDetected ((fun _ => CheckOutcome.ok false) 0) = false ∧
    pipeline "t" "r" "m" (fun _ => CheckOutcome.ok false)
        [Fragment.data "x", Fragment.data "[STOPPED]", Fragment.data "y"] none =
      [WireEnvelope.run_started "t" "r", WireEnvelope.content_delta "m" "x",
       WireEnvelope.content_delta "m" stopMarker,
       WireEnvelope.run_finished "t" "r"] :=
  ⟨rfl, (inband_stop_sentinel "t" "r" "m" (fun _ => CheckOutcome.ok false)
      [Fragment.data "x"] [Fragment.data "y"] none (fun j => rfl)
      (by decide)).trans (by decide)⟩

/-- Claim C10: the bulk stop response has one result per requested chat id in
request order; `total` is the number of requested ids; `successful` counts exactly
the `"accepted"` entries and `successful + failed = total`; an exception for one
id yields an `"error"` entry carrying its message at that id's position without
aborting the remaining ids. -/
theorem stop_multiple_chats_shape (reqs : List (String × SetStopOutcome)) :
    (stop_multiple_chats reqs).total = reqs.length ∧
    (stop_multiple_chats reqs).results.map StopResult.chat_id =
      reqs.map Prod.fst ∧
    (stop_multiple_chats reqs).successful + (stop_multiple_chats reqs).failed =
      (stop_multiple_chats reqs).total ∧
    (stop_multiple_chats reqs).successful =
      ((stop_multiple_chats reqs).results.filter
        (fun x => x.status == "accepted")).length ∧
    ∀ i (hi : i < reqs.length)
        (hr : i < (stop_multiple_chats reqs).results.length),
      ((stop_multiple_chats reqs).results.get ⟨i, hr⟩).chat_id =
          (reqs.get ⟨i, hi⟩).1 ∧
      ∀ e, (reqs.get ⟨i, hi⟩).2 = SetStopOutcome.raised e →
        ((stop_multiple_chats reqs).results.get ⟨i, hr⟩).status = "error" ∧
        ((stop_multiple_chats reqs).results.get ⟨i, hr⟩).error = some e := by
  refine ⟨by simp [stop_multiple_chats], map_resultFor_chat_id reqs, ?_, rfl, ?_⟩
  · simp only [stop_multiple_chats]
    exact Nat.add_sub_cancel' (List.length_filter_le _ _)
  · intro i hi hr
    have hget : (stop_multiple_chats reqs).results.get ⟨i, hr⟩ =
        resultFor (reqs.get ⟨i, hi⟩).1 (reqs.get ⟨i, hi⟩).2 := by
      simp [stop_multiple_chats, List.get_eq_getElem, List.getElem_map]
    refine ⟨by rw [hget, resultFor_chat_id], ?_⟩
    intro e he
    rw [hget, he]
    exact ⟨rfl, rfl⟩

/-- Witness for C10: one accepted id and one raising id. -/
theorem stop_multiple_chats_witness :
    1 < [("a", SetStopOutcome.ok true),
         ("b", SetStopOutcome.raised "boom")].length ∧
    (stop_multiple_chats [("a", SetStopOutcome.ok true),
        ("b", SetStopOutcome.raised "boom")]).successful +
      (stop_multiple_chats [("a", SetStopOutcome.ok true),
        ("b", SetStopOutcome.raised "boom")]).failed =
      (stop_multiple_chats [("a", SetStopOutcome.ok true),
        ("b", SetStopOutcome.raised "boom")]).total ∧
    ((stop_multiple_chats [("a", SetStopOutcome.ok true),
        ("b", SetStopOutcome.raised "boom")]).results.get
      ⟨1, by decide⟩).status = "error" :=
  ⟨by decide,
   (stop_multiple_chats_shape _).2.2.1,
   ((stop_multiple_chats_shape [("a", SetStopOutcome.ok true),
      ("b", SetStopOutcome.raised "boom")]).2.2.2.2 1 (by decide) (by decide)).2
        "boom" rfl |>.1⟩

end StopButton

